import Mathlib

/-!
Verification of the Intel IGD passthrough quirk logic (hw/vfio/igd.c):
generation classification, stolen-memory sizing, OpRegion setup, LPC/host
bridge register mirroring and the BAR0/BAR4 quirk installers.

Side effects of the C code (region-info queries, raw region reads, firmware
configuration file publication, PCI config-space/write-mask/emulated-bits
edits, register-mirror installation and diagnostics) are modelled as explicit
event traces returned alongside the device state.
-/

/-- 1 MiB, as in qemu/units.h. -/
def MiB : Nat := 1048576

def IGD_ASLS : Nat := 0xfc
def IGD_GMCH : Nat := 0x50
def IGD_BDSM : Nat := 0x5c
def IGD_BDSM_GEN11 : Nat := 0xc0

def IGD_GMCH_GEN6_GMS_SHIFT : Nat := 3
def IGD_GMCH_GEN6_GMS_MASK : Nat := 0x1f
def IGD_GMCH_GEN8_GMS_SHIFT : Nat := 8
def IGD_GMCH_GEN8_GMS_MASK : Nat := 0xff

def IGD_GGC_MMIO_OFFSET : Nat := 0x108040
def IGD_BDSM_MMIO_OFFSET : Nat := 0x1080C0

def PCI_VENDOR_ID_INTEL : Nat := 0x8086

/-- `igd_gen` from igd.c: maps a 16-bit device ID to a hardware generation,
or -1 for unsupported devices.  The Broxton/Apollo Lake rule (bits 11:1 equal
to those of 0xa84) is checked before the top-byte switch; the switch cases
are rendered as an if-chain evaluated in source order (C switch cases on
distinct constants). -/
def igd_gen (device_id : Nat) : Int :=
  if device_id &&& 0xffe = 0xa84 then 9
  else if device_id &&& 0xff00 = 0x0100 then 6                   -- SandyBridge, IvyBridge
  else if device_id &&& 0xff00 = 0x0400 ∨ device_id &&& 0xff00 = 0x0a00 ∨
          device_id &&& 0xff00 = 0x0c00 ∨ device_id &&& 0xff00 = 0x0d00 ∨
          device_id &&& 0xff00 = 0x0f00 then 7                   -- Haswell, Valleyview
  else if device_id &&& 0xff00 = 0x1600 ∨ device_id &&& 0xff00 = 0x2200 then 8
  else if device_id &&& 0xff00 = 0x1900 ∨ device_id &&& 0xff00 = 0x3100 ∨
          device_id &&& 0xff00 = 0x5900 ∨ device_id &&& 0xff00 = 0x3e00 ∨
          device_id &&& 0xff00 = 0x9B00 then 9                   -- Skylake .. Comet Lake
  else if device_id &&& 0xff00 = 0x8A00 ∨ device_id &&& 0xff00 = 0x4500 ∨
          device_id &&& 0xff00 = 0x4E00 then 11                  -- Ice/Elkhart/Jasper Lake
  else if device_id &&& 0xff00 = 0x9A00 ∨ device_id &&& 0xff00 = 0x4C00 ∨
          device_id &&& 0xff00 = 0x4600 ∨ device_id &&& 0xff00 = 0xA700 then 12
  else -1

/-- The generation table as the specification words it: top-byte rules keyed
on the high byte `device_id >>> 8`, preceded by the priority rule for IDs
whose bits 11:1 match 0xa84. -/
def igd_gen_spec (device_id : Nat) : Int :=
  if device_id &&& 0xffe = 0xa84 then 9
  else if device_id >>> 8 = 0x01 then 6
  else if device_id >>> 8 = 0x04 ∨ device_id >>> 8 = 0x0a ∨ device_id >>> 8 = 0x0c ∨
          device_id >>> 8 = 0x0d ∨ device_id >>> 8 = 0x0f then 7
  else if device_id >>> 8 = 0x16 ∨ device_id >>> 8 = 0x22 then 8
  else if device_id >>> 8 = 0x19 ∨ device_id >>> 8 = 0x31 ∨ device_id >>> 8 = 0x59 ∨
          device_id >>> 8 = 0x3e ∨ device_id >>> 8 = 0x9B then 9
  else if device_id >>> 8 = 0x8A ∨ device_id >>> 8 = 0x45 ∨ device_id >>> 8 = 0x4E then 11
  else if device_id >>> 8 = 0x9A ∨ device_id >>> 8 = 0x4C ∨ device_id >>> 8 = 0x46 ∨
          device_id >>> 8 = 0xA7 then 12
  else -1

lemma and_ff00_eq (id : Nat) (h : id < 65536) : id &&& 0xff00 = 256 * (id >>> 8) := by
  apply Nat.eq_of_testBit_eq
  intro i
  have h16 : ∀ j, 16 ≤ j → id.testBit j = false := by
    intro j hj
    apply Nat.testBit_lt_two_pow
    calc id < 65536 := h
      _ = 2 ^ 16 := by norm_num
      _ ≤ 2 ^ j := Nat.pow_le_pow_right (by norm_num) hj
  rw [show (0xff00 : Nat) = (2 ^ 8 - 1) <<< 8 by decide,
      show (256 : Nat) * (id >>> 8) = (id >>> 8) <<< 8 by
        rw [Nat.shiftLeft_eq]; ring]
  rw [Nat.testBit_and, Nat.testBit_shiftLeft, Nat.testBit_shiftLeft,
      Nat.testBit_two_pow_sub_one, Nat.testBit_shiftRight]
  by_cases h8 : 8 ≤ i
  · by_cases hi : i < 16
    · simp [ge_iff_le, h8, show i - 8 < 8 by omega, show 8 + (i - 8) = i by omega]
    · simp [ge_iff_le, h8, show ¬(i - 8 < 8) by omega, h16 i (by omega),
            h16 (8 + (i - 8)) (by omega)]
  · simp [ge_iff_le, h8]

lemma shiftRight8_lt (id : Nat) (h : id < 65536) : id >>> 8 < 256 := by
  rw [Nat.shiftRight_eq_div_pow]
  omega

/-- On 16-bit device IDs the code's switch on `device_id &&& 0xff00` agrees
with the spec's table keyed on the top byte. -/
lemma igd_gen_eq_igd_gen_spec (id : Nat) (h : id < 65536) :
    igd_gen id = igd_gen_spec id := by
  have hb := and_ff00_eq id h
  have hk := shiftRight8_lt id h
  unfold igd_gen igd_gen_spec
  rw [hb]
  by_cases hA : id &&& 0xffe = 0xa84
  · simp [hA]
  · simp only [hA, if_false]
    generalize id >>> 8 = k at hk ⊢
    interval_cases k <;> norm_num

/-- `igd_stolen_memory_size` from igd.c: the pre-allocated ("stolen")
graphics memory size in bytes, from the generation and the GMCH register. -/
def igd_stolen_memory_size (gen : Int) (gmch : Nat) : Nat :=
  let gms : Nat :=
    if gen < 8 then (gmch >>> IGD_GMCH_GEN6_GMS_SHIFT) &&& IGD_GMCH_GEN6_GMS_MASK
    else (gmch >>> IGD_GMCH_GEN8_GMS_SHIFT) &&& IGD_GMCH_GEN8_GMS_MASK
  if gen < 9 then gms * 32 * MiB
  else if gms < 0xf0 then gms * 32 * MiB
  else (gms - 0xf0 + 1) * 4 * MiB

/-- The stolen-memory size as the specification words it: a 5-bit field at
shift 3 (generation < 8) or an 8-bit field at shift 8 (generation ≥ 8),
rendered with division/modulus arithmetic; sizes are field × 32 MiB below
generation 9, and above that the extended encoding maps field ≥ 0xF0 to
(field − 0xF0 + 1) × 4 MiB. -/
def stolen_size_spec (gen : Int) (gmch : Nat) : Nat :=
  let field : Nat := if gen < 8 then gmch / 2 ^ 3 % 2 ^ 5 else gmch / 2 ^ 8 % 2 ^ 8
  if gen < 9 then field * (32 * MiB)
  else if field < 0xF0 then field * (32 * MiB)
  else (field - 0xF0 + 1) * (4 * MiB)

lemma stolen_field_eq (gmch s w : Nat) :
    (gmch >>> s) &&& (2 ^ w - 1) = gmch / 2 ^ s % 2 ^ w := by
  rw [Nat.and_pow_two_sub_one_eq_mod, Nat.shiftRight_eq_div_pow]

example : igd_gen 0x0a84 = 9 := by decide
example : igd_gen 0x0a00 = 7 := by decide
example : igd_gen 0x1912 = 9 := by decide
example : igd_gen 0x7777 = -1 := by decide

/-- C1: for every 16-bit device ID the classifier follows the spec's table:
the bits-11:1 = 0xa84 rule returns 9 with priority over the top-byte rules,
the listed top bytes return the listed generations, and every other ID
returns the unsupported sentinel -1. -/
theorem igd_gen_matches_table (id : Nat) (h : id < 65536) :
    igd_gen id = igd_gen_spec id :=
  igd_gen_eq_igd_gen_spec id h

theorem igd_gen_matches_table_witness :
    igd_gen 0x5a84 = igd_gen_spec 0x5a84 :=
  igd_gen_matches_table 0x5a84 (by norm_num)

/-- C9: the classifier's codomain over 16-bit device IDs is exactly
{-1, 6, 7, 8, 9, 11, 12}; in particular it never returns 10. -/
theorem igd_gen_codomain (id : Nat) (h : id < 65536) :
    (igd_gen id = -1 ∨ igd_gen id = 6 ∨ igd_gen id = 7 ∨ igd_gen id = 8 ∨
     igd_gen id = 9 ∨ igd_gen id = 11 ∨ igd_gen id = 12) ∧ igd_gen id ≠ 10 := by
  rw [igd_gen_eq_igd_gen_spec id h]
  unfold igd_gen_spec
  split_ifs <;> norm_num

theorem igd_gen_codomain_witness :
    (igd_gen 0x9a49 = -1 ∨ igd_gen 0x9a49 = 6 ∨ igd_gen 0x9a49 = 7 ∨
     igd_gen 0x9a49 = 8 ∨ igd_gen 0x9a49 = 9 ∨ igd_gen 0x9a49 = 11 ∨
     igd_gen 0x9a49 = 12) ∧ igd_gen 0x9a49 ≠ 10 :=
  igd_gen_codomain 0x9a49 (by norm_num)

example : igd_stolen_memory_size 9 (0xf5 <<< 8) = 24 * MiB := by decide
example : igd_stolen_memory_size 9 (0xe0 <<< 8) = 0xe0 * 32 * MiB := by decide
example : igd_stolen_memory_size 6 (0x7 <<< 3) = 7 * 32 * MiB := by decide

/-- C2: for every generation and GMCH value, the stolen-memory size is
computed from a 5-bit field at shift 3 (gen < 8) or an 8-bit field at shift 8
(gen ≥ 8); below generation 9 the size is field × 32 MiB, from generation 9
on it is field × 32 MiB for field < 0xF0 and (field − 0xF0 + 1) × 4 MiB
otherwise, in exact integer arithmetic. -/
theorem igd_stolen_memory_size_matches_spec (gen : Int) (gmch : Nat) :
    igd_stolen_memory_size gen gmch = stolen_size_spec gen gmch := by
  unfold igd_stolen_memory_size stolen_size_spec
  simp only [IGD_GMCH_GEN6_GMS_SHIFT, IGD_GMCH_GEN6_GMS_MASK,
             IGD_GMCH_GEN8_GMS_SHIFT, IGD_GMCH_GEN8_GMS_MASK]
  rw [show (0x1f : Nat) = 2 ^ 5 - 1 by norm_num,
      show (0xff : Nat) = 2 ^ 8 - 1 by norm_num,
      stolen_field_eq, stolen_field_eq]
  split_ifs <;> ring

/-! ## Effect-trace model of the stateful quirk routines -/

def ALL_ONES32 : Nat := 0xffffffff
def ALL_ONES64 : Nat := 0xffffffffffffffff

/-- Bit complement within a 32-bit register, as C's `~` on a `uint32_t`. -/
def NOT32 (m : Nat) : Nat := 0xffffffff ^^^ m

/-- vfio region-info subtype numbers (linux/vfio.h). -/
def VFIO_REGION_SUBTYPE_INTEL_IGD_OPREGION : Nat := 1
def VFIO_REGION_SUBTYPE_INTEL_IGD_HOST_CFG : Nat := 2
def VFIO_REGION_SUBTYPE_INTEL_IGD_LPC_CFG : Nat := 3

def PCI_VENDOR_ID : Nat := 0x00
def PCI_DEVICE_ID : Nat := 0x02
def PCI_REVISION_ID : Nat := 0x08
def PCI_SUBSYSTEM_VENDOR_ID : Nat := 0x2c
def PCI_SUBSYSTEM_ID : Nat := 0x2e

/-- A `struct vfio_region_info`: the fields the quirk code uses. -/
structure RegionInfo where
  size : Nat
  offset : Nat
deriving DecidableEq

/-- Which of the three per-device config byte arrays a write lands in:
`pdev.config`, `pdev.wmask` or `emulated_config_bits`. -/
inductive CfgArray
  | config
  | wmask
  | emu
deriving DecidableEq

/-- Which companion device a host-register copy writes into. -/
inductive CopyTarget
  | hostBridge
  | lpcBridge
deriving DecidableEq

/-- The error conditions the quirk code reports (via error_setg /
error_report), named after the specification's error kinds. -/
inductive IGDError
  | UnsupportedHotplug
  | RegionUnavailable
  | ReadFailed
  | CapabilityMissing
  | AddressConflict
  | HostBridgeMissing
  | CopyFailed
  | LpcInitFailed
  | HostInitFailed
  | UnsupportedGeneration
  | NoRom
  | HotplugRomDisabled
  | VgaEnableFailed
  | InvalidParameterValue
deriving DecidableEq

/-- One observable side effect of the quirk code: a vendor-specific
region-info query, a raw `pread`, a fw_cfg file publication, a config-space /
write-mask / emulated-bits register write on the IGD device, creation of the
companion LPC bridge, a register copy into a companion bridge, or an error
diagnostic. -/
inductive Ev
  | regionQuery (subtype : Nat)
  | rawRead (len off : Nat)
  | fwAdd (name : String) (data : List Nat)
  | cfgWrite (arr : CfgArray) (off width val : Nat)
  | createDevice (typeName : String)
  | copyReg (target : CopyTarget) (off len : Nat)
  | errReport (e : IGDError)
deriving DecidableEq

/-- The device fields the OpRegion path mutates: the owned OpRegion buffer
and the ROM-failed marker. -/
structure DevState where
  igd_opregion : Option (List Nat)
  rom_read_failed : Bool
deriving DecidableEq

/-- External world of the OpRegion path: the region-info query's result, the
number of bytes the raw read returns, and the bytes it yields. -/
structure OpRegionWorld where
  opregion_info : Except Int RegionInfo
  pread_ret : Int
  opregion_data : List Nat

/-- `vfio_pci_igd_opregion_init` from igd.c: allocate a buffer of the
region's size, read the OpRegion; on a short read free the buffer and fail;
on success publish the buffer as fw_cfg file "etc/igd-opregion" and arm the
ASLS register (value 0, full write mask, full emulated mask). -/
def vfio_pci_igd_opregion_init (s : DevState) (info : RegionInfo)
    (pread_ret : Int) (data : List Nat) : Bool × DevState × List Ev :=
  if pread_ret ≠ (info.size : Int) then
    (false, { s with igd_opregion := none },
     [Ev.rawRead info.size info.offset, Ev.errReport IGDError.ReadFailed])
  else
    (true, { s with igd_opregion := some data },
     [Ev.rawRead info.size info.offset,
      Ev.fwAdd "etc/igd-opregion" data,
      Ev.cfgWrite CfgArray.config IGD_ASLS 4 0,
      Ev.cfgWrite CfgArray.wmask IGD_ASLS 4 ALL_ONES32,
      Ev.cfgWrite CfgArray.emu IGD_ASLS 4 ALL_ONES32])

/-- `vfio_pci_igd_setup_opregion` from igd.c: reject hot-added devices, query
the OpRegion region descriptor, then run `vfio_pci_igd_opregion_init`. -/
def vfio_pci_igd_setup_opregion (hotplugged : Bool) (s : DevState)
    (w : OpRegionWorld) : Bool × DevState × List Ev :=
  if hotplugged then
    (false, s, [Ev.errReport IGDError.UnsupportedHotplug])
  else
    match w.opregion_info with
    | Except.error _ =>
        (false, s, [Ev.regionQuery VFIO_REGION_SUBTYPE_INTEL_IGD_OPREGION,
                    Ev.errReport IGDError.RegionUnavailable])
    | Except.ok info =>
        let r := vfio_pci_igd_opregion_init s info w.pread_ret w.opregion_data
        (r.1, r.2.1, Ev.regionQuery VFIO_REGION_SUBTYPE_INTEL_IGD_OPREGION :: r.2.2)

/-- C5: OpRegion setup on a hot-added device always fails with
UnsupportedHotplug, performs no region-descriptor query and no raw read, and
leaves the device state unchanged. -/
theorem setup_opregion_rejects_hotplug (s : DevState) (w : OpRegionWorld) :
    vfio_pci_igd_setup_opregion true s w =
      (false, s, [Ev.errReport IGDError.UnsupportedHotplug]) :=
  rfl

/-- C6: a short or failed OpRegion read makes `vfio_pci_igd_opregion_init`
fail with ReadFailed, release the buffer (the OpRegion pointer is none), and
emit no fw_cfg entry and no ASLS config/mask write. -/
theorem opregion_init_short_read (s : DevState) (info : RegionInfo)
    (ret : Int) (data : List Nat) (h : ret < (info.size : Int)) :
    vfio_pci_igd_opregion_init s info ret data =
      (false, { igd_opregion := none, rom_read_failed := s.rom_read_failed },
       [Ev.rawRead info.size info.offset, Ev.errReport IGDError.ReadFailed]) := by
  unfold vfio_pci_igd_opregion_init
  rw [if_pos (by omega)]

theorem opregion_init_short_read_witness :
    vfio_pci_igd_opregion_init ⟨none, false⟩ ⟨0x2000, 0x1000⟩ 0x100 [] =
      (false, { igd_opregion := none, rom_read_failed := false },
       [Ev.rawRead 0x2000 0x1000, Ev.errReport IGDError.ReadFailed]) :=
  opregion_init_short_read ⟨none, false⟩ ⟨0x2000, 0x1000⟩ 0x100 [] (by norm_num)

/-- The register sets copied from the physical bridges (igd.c tables). -/
def igd_host_bridge_infos : List (Nat × Nat) :=
  [(PCI_REVISION_ID, 2), (PCI_SUBSYSTEM_VENDOR_ID, 2), (PCI_SUBSYSTEM_ID, 2)]

def igd_lpc_bridge_infos : List (Nat × Nat) :=
  [(PCI_VENDOR_ID, 2), (PCI_DEVICE_ID, 2), (PCI_REVISION_ID, 2),
   (PCI_SUBSYSTEM_VENDOR_ID, 2), (PCI_SUBSYSTEM_ID, 2)]

/-- The device found at PCI slot 00:1f.0, if any: all the code asks of it is
whether it is an instance of "vfio-pci-igd-lpc-bridge". -/
structure SlotDevice where
  is_vfio_igd_lpc_bridge : Bool
deriving DecidableEq

/-- External world of the LPC/host bridge path: occupant of slot 00:1f.0,
the two region-info query results, presence of the virtual host bridge at
00:00.0, and per-register success of the raw reads feeding each copy. -/
structure LpcWorld where
  lpc_slot : Option SlotDevice
  lpc_region : Except Int RegionInfo
  host_region : Except Int RegionInfo
  host_bridge_present : Bool
  lpc_read_ok : Nat → Nat → Bool
  host_read_ok : Nat → Nat → Bool

/-- `vfio_pci_igd_copy` from igd.c: copy the listed registers in order into
the target device's config space, stopping with -errno at the first short
read. -/
def vfio_pci_igd_copy (target : CopyTarget) (readOk : Nat → Nat → Bool) :
    List (Nat × Nat) → Int × List Ev
  | [] => (0, [])
  | (off, len) :: rest =>
    if readOk off len then
      let r := vfio_pci_igd_copy target readOk rest
      (r.1, Ev.copyReg target off len :: r.2)
    else
      (-1, [Ev.errReport IGDError.CopyFailed])

/-- `vfio_pci_igd_lpc_init` from igd.c: find the LPC bridge at 00:1f.0 or
create the companion bridge there, then copy `igd_lpc_bridge_infos`. -/
def vfio_pci_igd_lpc_init (w : LpcWorld) : Int × List Ev :=
  let create :=
    match w.lpc_slot with
    | none => [Ev.createDevice "vfio-pci-igd-lpc-bridge"]
    | some _ => []
  let r := vfio_pci_igd_copy CopyTarget.lpcBridge w.lpc_read_ok igd_lpc_bridge_infos
  (r.1, create ++ r.2)

/-- `vfio_pci_igd_host_init` from igd.c: find the virtual host bridge at
00:00.0 and copy `igd_host_bridge_infos` into it. -/
def vfio_pci_igd_host_init (w : LpcWorld) : Int × List Ev :=
  if w.host_bridge_present then
    vfio_pci_igd_copy CopyTarget.hostBridge w.host_read_ok igd_host_bridge_infos
  else
    (-19, [Ev.errReport IGDError.HostBridgeMissing])

/-- `vfio_pci_igd_setup_lpc_bridge` from igd.c: reject hot-added devices;
fail if a foreign device occupies 00:1f.0; require the LPC and host-bridge
config regions; then run the LPC and host-bridge copies. -/
def vfio_pci_igd_setup_lpc_bridge (hotplugged : Bool) (w : LpcWorld) :
    Bool × List Ev :=
  if hotplugged then
    (false, [Ev.errReport IGDError.UnsupportedHotplug])
  else if (match w.lpc_slot with
           | some d => !d.is_vfio_igd_lpc_bridge
           | none => false) then
    (false, [Ev.errReport IGDError.AddressConflict])
  else
    match w.lpc_region with
    | Except.error _ =>
        (false, [Ev.regionQuery VFIO_REGION_SUBTYPE_INTEL_IGD_LPC_CFG,
                 Ev.errReport IGDError.CapabilityMissing])
    | Except.ok _ =>
      match w.host_region with
      | Except.error _ =>
          (false, [Ev.regionQuery VFIO_REGION_SUBTYPE_INTEL_IGD_LPC_CFG,
                   Ev.regionQuery VFIO_REGION_SUBTYPE_INTEL_IGD_HOST_CFG,
                   Ev.errReport IGDError.CapabilityMissing])
      | Except.ok _ =>
        let rl := vfio_pci_igd_lpc_init w
        if rl.1 ≠ 0 then
          (false, [Ev.regionQuery VFIO_REGION_SUBTYPE_INTEL_IGD_LPC_CFG,
                   Ev.regionQuery VFIO_REGION_SUBTYPE_INTEL_IGD_HOST_CFG] ++
                  rl.2 ++ [Ev.errReport IGDError.LpcInitFailed])
        else
          let rh := vfio_pci_igd_host_init w
          if rh.1 ≠ 0 then
            (false, [Ev.regionQuery VFIO_REGION_SUBTYPE_INTEL_IGD_LPC_CFG,
                     Ev.regionQuery VFIO_REGION_SUBTYPE_INTEL_IGD_HOST_CFG] ++
                    rl.2 ++ rh.2 ++ [Ev.errReport IGDError.HostInitFailed])
          else
            (true, [Ev.regionQuery VFIO_REGION_SUBTYPE_INTEL_IGD_LPC_CFG,
                    Ev.regionQuery VFIO_REGION_SUBTYPE_INTEL_IGD_HOST_CFG] ++
                   rl.2 ++ rh.2)

/-- C7: on a non-hot-added device, a foreign occupant of slot 00:1f.0 makes
bridge setup fail with AddressConflict before any region query, register
copy or host-bridge config write. -/
theorem setup_lpc_bridge_address_conflict (w : LpcWorld) (d : SlotDevice)
    (hslot : w.lpc_slot = some d) (hd : d.is_vfio_igd_lpc_bridge = false) :
    vfio_pci_igd_setup_lpc_bridge false w =
      (false, [Ev.errReport IGDError.AddressConflict]) := by
  unfold vfio_pci_igd_setup_lpc_bridge
  rw [hslot]
  simp [hd]

theorem setup_lpc_bridge_address_conflict_witness :
    vfio_pci_igd_setup_lpc_bridge false
      ⟨some ⟨false⟩, Except.ok ⟨0, 0⟩, Except.ok ⟨0, 0⟩, true,
       fun _ _ => true, fun _ _ => true⟩ =
      (false, [Ev.errReport IGDError.AddressConflict]) :=
  setup_lpc_bridge_address_conflict
    ⟨some ⟨false⟩, Except.ok ⟨0, 0⟩, Except.ok ⟨0, 0⟩, true,
     fun _ _ => true, fun _ _ => true⟩ ⟨false⟩ rfl rfl

/-- Device-identity fields the BAR probes gate on: vendor ID, device ID,
VGA class, and whether the device sits at PCI address 00:02.0. -/
structure IgdDeviceIdent where
  vendor_id : Nat
  device_id : Nat
  is_vga : Bool
  at_addr_00_02_0 : Bool
deriving DecidableEq

/-- A `VFIOConfigMirrorQuirk` binding as installed by the BAR0 probe: the
BAR index, the MMIO offset of the mirror window, the config-space offset it
mirrors, and the window width in bytes (the size passed to
memory_region_init_io). -/
structure VFIOConfigMirrorQuirk where
  bar : Nat
  offset : Nat
  config_offset : Nat
  size : Nat
deriving DecidableEq

/-- `vfio_probe_igd_bar0_quirk` from igd.c: for an Intel VGA device at
00:02.0 probed at region index 0 with classified generation ≥ 6, install the
GGC mirror (2 bytes at 0x108040 from IGD_GMCH) and the BDSM mirror (at
0x1080C0; 4 bytes from IGD_BDSM below generation 11, 8 bytes from
IGD_BDSM_GEN11 from generation 11 on); otherwise install nothing. -/
def vfio_probe_igd_bar0_quirk (d : IgdDeviceIdent) (nr : Nat) :
    List VFIOConfigMirrorQuirk :=
  if !(d.vendor_id == PCI_VENDOR_ID_INTEL) || !d.is_vga || nr != 0 ||
     !d.at_addr_00_02_0 then
    []
  else
    let gen := igd_gen d.device_id
    if gen < 6 then
      []
    else
      [{ bar := nr, offset := IGD_GGC_MMIO_OFFSET,
         config_offset := IGD_GMCH, size := 2 },
       { bar := nr, offset := IGD_BDSM_MMIO_OFFSET,
         config_offset := if gen < 11 then IGD_BDSM else IGD_BDSM_GEN11,
         size := if gen < 11 then 4 else 8 }]

/-- C8: the BAR0 probe is a no-op whenever the classified generation is
below 6; for an Intel VGA device at 00:02.0 probed at region index 0 with
generation ≥ 6 it installs exactly the two register-mirror bindings: 2 bytes
at 0x108040 mirroring the GMCH register, and at 0x1080C0 either 4 bytes from
0x5c (generation < 11) or 8 bytes from 0xc0 (generation ≥ 11). -/
theorem bar0_quirk_bindings (d : IgdDeviceIdent) (nr : Nat) :
    (igd_gen d.device_id < 6 → vfio_probe_igd_bar0_quirk d nr = []) ∧
    (d.vendor_id = PCI_VENDOR_ID_INTEL → d.is_vga = true →
     d.at_addr_00_02_0 = true → 6 ≤ igd_gen d.device_id →
     vfio_probe_igd_bar0_quirk d 0 =
       [{ bar := 0, offset := IGD_GGC_MMIO_OFFSET,
          config_offset := IGD_GMCH, size := 2 },
        { bar := 0, offset := IGD_BDSM_MMIO_OFFSET,
          config_offset := if igd_gen d.device_id < 11 then IGD_BDSM
                           else IGD_BDSM_GEN11,
          size := if igd_gen d.device_id < 11 then 4 else 8 }]) := by
  constructor
  · intro hgen
    unfold vfio_probe_igd_bar0_quirk
    split
    · rfl
    · rw [if_pos hgen]
  · intro hv hvga haddr hgen
    unfold vfio_probe_igd_bar0_quirk
    rw [if_neg (by simp [hv, hvga, haddr]), if_neg (by omega)]

theorem bar0_quirk_bindings_witness :
    vfio_probe_igd_bar0_quirk ⟨0x8086, 0x3577, true, true⟩ 0 = [] ∧
    vfio_probe_igd_bar0_quirk ⟨0x8086, 0x1912, true, true⟩ 0 =
      [{ bar := 0, offset := IGD_GGC_MMIO_OFFSET,
         config_offset := IGD_GMCH, size := 2 },
       { bar := 0, offset := IGD_BDSM_MMIO_OFFSET,
         config_offset := IGD_BDSM, size := 4 }] :=
  ⟨(bar0_quirk_bindings ⟨0x8086, 0x3577, true, true⟩ 0).1 (by decide),
   (bar0_quirk_bindings ⟨0x8086, 0x1912, true, true⟩ 0).2 rfl rfl rfl (by decide)⟩

/-- The x-igd-gms override block of `vfio_probe_igd_bar4_quirk`
(igd.c lines 575-593): a nonzero user override within the generation's
permitted range replaces the stolen-memory field of `gmch`; an out-of-range
override only reports an invalid-parameter error; a zero override leaves the
block untaken. -/
def apply_gms_override (gen : Int) (igd_gms gmch : Nat) : Nat × List Ev :=
  if igd_gms ≠ 0 then
    if gen < 8 then
      if igd_gms ≤ 0x10 then
        ((gmch &&& NOT32 (IGD_GMCH_GEN6_GMS_MASK <<< IGD_GMCH_GEN6_GMS_SHIFT)) |||
           (igd_gms <<< IGD_GMCH_GEN6_GMS_SHIFT), [])
      else
        (gmch, [Ev.errReport IGDError.InvalidParameterValue])
    else
      if igd_gms ≤ 0x40 then
        ((gmch &&& NOT32 (IGD_GMCH_GEN8_GMS_MASK <<< IGD_GMCH_GEN8_GMS_SHIFT)) |||
           (igd_gms <<< IGD_GMCH_GEN8_GMS_SHIFT), [])
      else
        (gmch, [Ev.errReport IGDError.InvalidParameterValue])
  else
    (gmch, [])

/-- `cpu_to_le64` laid out as the 8 bytes of the fw_cfg blob. -/
def cpu_to_le64_bytes (n : Nat) : List Nat :=
  [n &&& 0xff, (n >>> 8) &&& 0xff, (n >>> 16) &&& 0xff, (n >>> 24) &&& 0xff,
   (n >>> 32) &&& 0xff, (n >>> 40) &&& 0xff, (n >>> 48) &&& 0xff,
   (n >>> 56) &&& 0xff]

/-- The tail of the BAR4 probe (igd.c lines 595-624): publish the computed
stolen size to fw_cfg as little-endian 64-bit, make GMCH read-only emulated,
and zero the writable, fully emulated BDSM register in its generation's
layout. -/
def bar4_final_writes (gen : Int) (gmch : Nat) : List Ev :=
  [Ev.fwAdd "etc/igd-bdsm-size" (cpu_to_le64_bytes (igd_stolen_memory_size gen gmch)),
   Ev.cfgWrite CfgArray.config IGD_GMCH 4 gmch,
   Ev.cfgWrite CfgArray.wmask IGD_GMCH 4 0,
   Ev.cfgWrite CfgArray.emu IGD_GMCH 4 ALL_ONES32] ++
  (if gen < 11 then
    [Ev.cfgWrite CfgArray.config IGD_BDSM 4 0,
     Ev.cfgWrite CfgArray.wmask IGD_BDSM 4 ALL_ONES32,
     Ev.cfgWrite CfgArray.emu IGD_BDSM 4 ALL_ONES32]
   else
    [Ev.cfgWrite CfgArray.config IGD_BDSM_GEN11 8 0,
     Ev.cfgWrite CfgArray.wmask IGD_BDSM_GEN11 8 ALL_ONES64,
     Ev.cfgWrite CfgArray.emu IGD_BDSM_GEN11 8 ALL_ONES64])

/-- Everything the BAR4 probe consults: device identity, ROM availability,
hotplug flag, the GMCH register value read from config space, VGA state, the
x-igd-gms override property, the device state and the worlds of the two
setup sub-routines. -/
structure Bar4Device where
  vendor_id : Nat
  device_id : Nat
  is_vga : Bool
  at_addr_00_02_0 : Bool
  rom_info : Except Int RegionInfo
  romfile : Bool
  hotplugged : Bool
  gmch_read : Nat
  vga_present : Bool
  populate_vga_ok : Bool
  igd_gms : Nat
  state : DevState
  opw : OpRegionWorld
  lpcw : LpcWorld

/-- `vfio_probe_igd_bar4_quirk` from igd.c: the legacy-mode orchestrator.
Gates on Intel VGA at 00:02.0 and region index 4; aborts on unsupported
generation, missing ROM, hotplug (marking the ROM failed), and VGA-enable
failure; runs OpRegion and LPC/host-bridge setup; applies the x-igd-gms
override; then publishes the stolen size and rewrites GMCH/BDSM. -/
def vfio_probe_igd_bar4_quirk (d : Bar4Device) (nr : Nat) : DevState × List Ev :=
  if !(d.vendor_id == PCI_VENDOR_ID_INTEL) || !d.is_vga || nr != 4 ||
     !d.at_addr_00_02_0 then
    (d.state, [])
  else
    let gen := igd_gen d.device_id
    if gen = -1 then
      (d.state, [Ev.errReport IGDError.UnsupportedGeneration])
    else if (match d.rom_info with
             | Except.error _ => true
             | Except.ok rom => rom.size == 0) && !d.romfile then
      (d.state, [Ev.errReport IGDError.NoRom])
    else if d.hotplugged then
      ({ d.state with rom_read_failed := true },
       [Ev.errReport IGDError.HotplugRomDisabled])
    else
      let gmch := d.gmch_read
      if gmch &&& 0x2 == 0 && !d.vga_present && !d.populate_vga_ok then
        (d.state, [Ev.errReport IGDError.VgaEnableFailed])
      else
        let ro := vfio_pci_igd_setup_opregion d.hotplugged d.state d.opw
        if !ro.1 then
          (ro.2.1, ro.2.2)
        else
          let rl := vfio_pci_igd_setup_lpc_bridge d.hotplugged d.lpcw
          if !rl.1 then
            (ro.2.1, ro.2.2 ++ rl.2)
          else
            let og := apply_gms_override gen d.igd_gms gmch
            (ro.2.1, ro.2.2 ++ rl.2 ++ og.2 ++ bar4_final_writes gen og.1)

lemma setup_opregion_success (s : DevState) (w : OpRegionWorld)
    (info : RegionInfo) (hi : w.opregion_info = Except.ok info)
    (hr : w.pread_ret = (info.size : Int)) :
    vfio_pci_igd_setup_opregion false s w =
      (true, { s with igd_opregion := some w.opregion_data },
       [Ev.regionQuery VFIO_REGION_SUBTYPE_INTEL_IGD_OPREGION,
        Ev.rawRead info.size info.offset,
        Ev.fwAdd "etc/igd-opregion" w.opregion_data,
        Ev.cfgWrite CfgArray.config IGD_ASLS 4 0,
        Ev.cfgWrite CfgArray.wmask IGD_ASLS 4 ALL_ONES32,
        Ev.cfgWrite CfgArray.emu IGD_ASLS 4 ALL_ONES32]) := by
  unfold vfio_pci_igd_setup_opregion
  rw [hi]
  unfold vfio_pci_igd_opregion_init
  simp [hr]

lemma setup_lpc_bridge_success (w : LpcWorld) (r1 r2 : RegionInfo)
    (hslot : (match w.lpc_slot with
              | some d => !d.is_vfio_igd_lpc_bridge
              | none => false) = false)
    (hl : w.lpc_region = Except.ok r1) (hh : w.host_region = Except.ok r2)
    (hlc : (vfio_pci_igd_lpc_init w).1 = 0)
    (hhc : (vfio_pci_igd_host_init w).1 = 0) :
    vfio_pci_igd_setup_lpc_bridge false w =
      (true, [Ev.regionQuery VFIO_REGION_SUBTYPE_INTEL_IGD_LPC_CFG,
              Ev.regionQuery VFIO_REGION_SUBTYPE_INTEL_IGD_HOST_CFG] ++
             (vfio_pci_igd_lpc_init w).2 ++ (vfio_pci_igd_host_init w).2) := by
  unfold vfio_pci_igd_setup_lpc_bridge
  rw [hl, hh]
  simp [hslot, hlc, hhc]

/-- The success path of the BAR4 probe: with all gates passed and both setup
routines succeeding, the probe commits the OpRegion state and emits the
OpRegion trace, the bridge trace, the override diagnostics and the final
size/GMCH/BDSM writes. -/
lemma bar4_success_trace (d : Bar4Device) (info r1 r2 : RegionInfo)
    (hv : d.vendor_id = PCI_VENDOR_ID_INTEL) (hvga : d.is_vga = true)
    (haddr : d.at_addr_00_02_0 = true)
    (hgen : igd_gen d.device_id ≠ -1)
    (hrom : ((match d.rom_info with
              | Except.error _ => true
              | Except.ok rom => rom.size == 0) && !d.romfile) = false)
    (hhot : d.hotplugged = false)
    (hvgaen : (d.gmch_read &&& 0x2 == 0 &&
               !d.vga_present && !d.populate_vga_ok) = false)
    (hopi : d.opw.opregion_info = Except.ok info)
    (hopr : d.opw.pread_ret = (info.size : Int))
    (hslot : (match d.lpcw.lpc_slot with
              | some dev => !dev.is_vfio_igd_lpc_bridge
              | none => false) = false)
    (hl : d.lpcw.lpc_region = Except.ok r1)
    (hh : d.lpcw.host_region = Except.ok r2)
    (hlc : (vfio_pci_igd_lpc_init d.lpcw).1 = 0)
    (hhc : (vfio_pci_igd_host_init d.lpcw).1 = 0) :
    vfio_probe_igd_bar4_quirk d 4 =
      ({ d.state with igd_opregion := some d.opw.opregion_data },
       ([Ev.regionQuery VFIO_REGION_SUBTYPE_INTEL_IGD_OPREGION,
         Ev.rawRead info.size info.offset,
         Ev.fwAdd "etc/igd-opregion" d.opw.opregion_data,
         Ev.cfgWrite CfgArray.config IGD_ASLS 4 0,
         Ev.cfgWrite CfgArray.wmask IGD_ASLS 4 ALL_ONES32,
         Ev.cfgWrite CfgArray.emu IGD_ASLS 4 ALL_ONES32] ++
        ([Ev.regionQuery VFIO_REGION_SUBTYPE_INTEL_IGD_LPC_CFG,
          Ev.regionQuery VFIO_REGION_SUBTYPE_INTEL_IGD_HOST_CFG] ++
         (vfio_pci_igd_lpc_init d.lpcw).2 ++ (vfio_pci_igd_host_init d.lpcw).2) ++
        (apply_gms_override (igd_gen d.device_id) d.igd_gms d.gmch_read).2 ++
        bar4_final_writes (igd_gen d.device_id)
          (apply_gms_override (igd_gen d.device_id) d.igd_gms d.gmch_read).1)) := by
  unfold vfio_probe_igd_bar4_quirk
  rw [if_neg (by simp [hv, hvga, haddr]), if_neg hgen, if_neg (by simp [hrom]),
      hhot, if_neg (by simp), if_neg (by simp [hvgaen]),
      setup_opregion_success d.state d.opw info hopi hopr,
      setup_lpc_bridge_success d.lpcw r1 r2 hslot hl hh hlc hhc]
  simp [List.append_assoc]

/-- Inserting a w-bit value g at shift s into a 32-bit register (clear the
field with the inverted mask, OR in the shifted value) and extracting the
field again yields g. -/
lemma override_insert_extract (a g s w : Nat) (hg : g < 2 ^ w)
    (hsw : s + w ≤ 32) :
    ((a &&& NOT32 ((2 ^ w - 1) <<< s)) ||| (g <<< s)) / 2 ^ s % 2 ^ w = g := by
  rw [← stolen_field_eq]
  apply Nat.eq_of_testBit_eq
  intro i
  rw [Nat.testBit_and, Nat.testBit_shiftRight, Nat.testBit_two_pow_sub_one,
      Nat.testBit_or, Nat.testBit_and]
  by_cases hiw : i < w
  · have h1 : (NOT32 ((2 ^ w - 1) <<< s)).testBit (s + i) = false := by
      unfold NOT32
      rw [Nat.testBit_xor, Nat.testBit_shiftLeft, Nat.testBit_two_pow_sub_one,
          show (0xffffffff : Nat) = 2 ^ 32 - 1 by norm_num,
          Nat.testBit_two_pow_sub_one]
      simp [show s + i < 32 by omega, ge_iff_le, Nat.le_add_right,
            show s + i - s = i by omega, hiw]
    have h2 : (g <<< s).testBit (s + i) = g.testBit i := by
      rw [Nat.testBit_shiftLeft]
      simp [ge_iff_le, Nat.le_add_right, show s + i - s = i by omega]
    simp [h1, h2, hiw]
  · have h3 : g.testBit i = false := by
      apply Nat.testBit_lt_two_pow
      calc g < 2 ^ w := hg
        _ ≤ 2 ^ i := Nat.pow_le_pow_right (by norm_num) (by omega)
    simp [hiw, h3]

lemma override_field6 (a g : Nat) (hg : g ≤ 0x10) :
    ((a &&& NOT32 (IGD_GMCH_GEN6_GMS_MASK <<< IGD_GMCH_GEN6_GMS_SHIFT)) |||
      (g <<< IGD_GMCH_GEN6_GMS_SHIFT)) / 2 ^ 3 % 2 ^ 5 = g := by
  have h := override_insert_extract a g 3 5 (by omega) (by norm_num)
  rw [show ((2 : Nat) ^ 5 - 1) = 0x1f by norm_num] at h
  simpa [IGD_GMCH_GEN6_GMS_MASK, IGD_GMCH_GEN6_GMS_SHIFT] using h

lemma override_field8 (a g : Nat) (hg : g ≤ 0x40) :
    ((a &&& NOT32 (IGD_GMCH_GEN8_GMS_MASK <<< IGD_GMCH_GEN8_GMS_SHIFT)) |||
      (g <<< IGD_GMCH_GEN8_GMS_SHIFT)) / 2 ^ 8 % 2 ^ 8 = g := by
  have h := override_insert_extract a g 8 8 (by omega) (by norm_num)
  rw [show ((2 : Nat) ^ 8 - 1) = 0xff by norm_num] at h
  simpa [IGD_GMCH_GEN8_GMS_MASK, IGD_GMCH_GEN8_GMS_SHIFT] using h

/-- C3: the end-to-end Skylake scenario. Device ID 0x1912 classifies to
generation 9; with a GMCH stolen-memory field of 0x10, no override and all
setup steps succeeding, the BAR4 probe computes 0x10 × 32 MiB = 512 MiB,
publishes it little-endian as fw_cfg file "etc/igd-bdsm-size", and zeroes
the 4-byte BDSM register (generation < 11 layout) with full write and
emulated masks. -/
theorem bar4_skylake_scenario (d : Bar4Device) (info r1 r2 : RegionInfo)
    (hid : d.device_id = 0x1912)
    (hv : d.vendor_id = PCI_VENDOR_ID_INTEL) (hvga : d.is_vga = true)
    (haddr : d.at_addr_00_02_0 = true)
    (hrom : ((match d.rom_info with
              | Except.error _ => true
              | Except.ok rom => rom.size == 0) && !d.romfile) = false)
    (hhot : d.hotplugged = false)
    (hvgaen : (d.gmch_read &&& 0x2 == 0 &&
               !d.vga_present && !d.populate_vga_ok) = false)
    (hopi : d.opw.opregion_info = Except.ok info)
    (hopr : d.opw.pread_ret = (info.size : Int))
    (hslot : (match d.lpcw.lpc_slot with
              | some dev => !dev.is_vfio_igd_lpc_bridge
              | none => false) = false)
    (hl : d.lpcw.lpc_region = Except.ok r1)
    (hh : d.lpcw.host_region = Except.ok r2)
    (hlc : (vfio_pci_igd_lpc_init d.lpcw).1 = 0)
    (hhc : (vfio_pci_igd_host_init d.lpcw).1 = 0)
    (hfield : (d.gmch_read >>> 8) &&& 0xff = 0x10)
    (hgms : d.igd_gms = 0) :
    igd_stolen_memory_size (igd_gen d.device_id) d.gmch_read = 512 * MiB ∧
    ∃ pre, (vfio_probe_igd_bar4_quirk d 4).2 =
      pre ++ [Ev.fwAdd "etc/igd-bdsm-size" (cpu_to_le64_bytes (512 * MiB)),
              Ev.cfgWrite CfgArray.config IGD_GMCH 4 d.gmch_read,
              Ev.cfgWrite CfgArray.wmask IGD_GMCH 4 0,
              Ev.cfgWrite CfgArray.emu IGD_GMCH 4 ALL_ONES32,
              Ev.cfgWrite CfgArray.config IGD_BDSM 4 0,
              Ev.cfgWrite CfgArray.wmask IGD_BDSM 4 ALL_ONES32,
              Ev.cfgWrite CfgArray.emu IGD_BDSM 4 ALL_ONES32] := by
  have hgen9 : igd_gen d.device_id = 9 := by rw [hid]; decide
  have hsize : igd_stolen_memory_size 9 d.gmch_read = 512 * MiB := by
    unfold igd_stolen_memory_size
    norm_num [IGD_GMCH_GEN8_GMS_SHIFT, IGD_GMCH_GEN8_GMS_MASK, hfield, MiB]
  refine ⟨by rw [hgen9]; exact hsize, ?_⟩
  rw [bar4_success_trace d info r1 r2 hv hvga haddr (by rw [hgen9]; decide)
        hrom hhot hvgaen hopi hopr hslot hl hh hlc hhc]
  refine ⟨[Ev.regionQuery VFIO_REGION_SUBTYPE_INTEL_IGD_OPREGION,
           Ev.rawRead info.size info.offset,
           Ev.fwAdd "etc/igd-opregion" d.opw.opregion_data,
           Ev.cfgWrite CfgArray.config IGD_ASLS 4 0,
           Ev.cfgWrite CfgArray.wmask IGD_ASLS 4 ALL_ONES32,
           Ev.cfgWrite CfgArray.emu IGD_ASLS 4 ALL_ONES32,
           Ev.regionQuery VFIO_REGION_SUBTYPE_INTEL_IGD_LPC_CFG,
           Ev.regionQuery VFIO_REGION_SUBTYPE_INTEL_IGD_HOST_CFG] ++
          (vfio_pci_igd_lpc_init d.lpcw).2 ++ (vfio_pci_igd_host_init d.lpcw).2, ?_⟩
  rw [hgen9, hgms]
  have hov : apply_gms_override 9 0 d.gmch_read = (d.gmch_read, []) := by
    unfold apply_gms_override
    simp
  rw [hov]
  simp only [bar4_final_writes, hsize]
  simp [List.append_assoc]

/-- A concrete Skylake device on which every gate of the BAR4 probe passes. -/
def skylakeDevice : Bar4Device :=
  { vendor_id := 0x8086, device_id := 0x1912, is_vga := true,
    at_addr_00_02_0 := true, rom_info := Except.ok ⟨0x10000, 0⟩,
    romfile := false, hotplugged := false, gmch_read := 0x1002,
    vga_present := true, populate_vga_ok := true, igd_gms := 0,
    state := ⟨none, false⟩,
    opw := ⟨Except.ok ⟨0x2000, 0x3000⟩, 0x2000, [1, 2, 3]⟩,
    lpcw := ⟨none, Except.ok ⟨0x40, 0⟩, Except.ok ⟨0x40, 0x100⟩, true,
             fun _ _ => true, fun _ _ => true⟩ }

theorem bar4_skylake_scenario_witness :
    igd_stolen_memory_size (igd_gen skylakeDevice.device_id)
        skylakeDevice.gmch_read = 512 * MiB ∧
    ∃ pre, (vfio_probe_igd_bar4_quirk skylakeDevice 4).2 =
      pre ++ [Ev.fwAdd "etc/igd-bdsm-size" (cpu_to_le64_bytes (512 * MiB)),
              Ev.cfgWrite CfgArray.config IGD_GMCH 4 skylakeDevice.gmch_read,
              Ev.cfgWrite CfgArray.wmask IGD_GMCH 4 0,
              Ev.cfgWrite CfgArray.emu IGD_GMCH 4 ALL_ONES32,
              Ev.cfgWrite CfgArray.config IGD_BDSM 4 0,
              Ev.cfgWrite CfgArray.wmask IGD_BDSM 4 ALL_ONES32,
              Ev.cfgWrite CfgArray.emu IGD_BDSM 4 ALL_ONES32] :=
  bar4_skylake_scenario skylakeDevice ⟨0x2000, 0x3000⟩ ⟨0x40, 0⟩ ⟨0x40, 0x100⟩
    rfl rfl rfl rfl (by decide) rfl (by decide) rfl (by decide) rfl rfl rfl
    (by decide) (by decide) (by decide) rfl

/-- C4: in the BAR4 probe, a nonzero x-igd-gms override is accepted exactly
when it is at most 0x10 (generation < 8) or at most 0x40 (generation ≥ 8).
An accepted override replaces the stolen-memory field of the GMCH value used
afterwards; a rejected one reports InvalidParameterValue, leaves the GMCH
value unmodified, and the probe still continues into the final size and
register writes. -/
theorem bar4_gms_override_validation (d : Bar4Device) (info r1 r2 : RegionInfo)
    (hv : d.vendor_id = PCI_VENDOR_ID_INTEL) (hvga : d.is_vga = true)
    (haddr : d.at_addr_00_02_0 = true)
    (hgen : igd_gen d.device_id ≠ -1)
    (hrom : ((match d.rom_info with
              | Except.error _ => true
              | Except.ok rom => rom.size == 0) && !d.romfile) = false)
    (hhot : d.hotplugged = false)
    (hvgaen : (d.gmch_read &&& 0x2 == 0 &&
               !d.vga_present && !d.populate_vga_ok) = false)
    (hopi : d.opw.opregion_info = Except.ok info)
    (hopr : d.opw.pread_ret = (info.size : Int))
    (hslot : (match d.lpcw.lpc_slot with
              | some dev => !dev.is_vfio_igd_lpc_bridge
              | none => false) = false)
    (hl : d.lpcw.lpc_region = Except.ok r1)
    (hh : d.lpcw.host_region = Except.ok r2)
    (hlc : (vfio_pci_igd_lpc_init d.lpcw).1 = 0)
    (hhc : (vfio_pci_igd_host_init d.lpcw).1 = 0)
    (hg : d.igd_gms ≠ 0) :
    (igd_gen d.device_id < 8 →
       (d.igd_gms ≤ 0x10 →
          (apply_gms_override (igd_gen d.device_id) d.igd_gms d.gmch_read).2 = [] ∧
          (apply_gms_override (igd_gen d.device_id) d.igd_gms d.gmch_read).1
              / 2 ^ 3 % 2 ^ 5 = d.igd_gms) ∧
       (0x10 < d.igd_gms →
          apply_gms_override (igd_gen d.device_id) d.igd_gms d.gmch_read =
            (d.gmch_read, [Ev.errReport IGDError.InvalidParameterValue]))) ∧
    (8 ≤ igd_gen d.device_id →
       (d.igd_gms ≤ 0x40 →
          (apply_gms_override (igd_gen d.device_id) d.igd_gms d.gmch_read).2 = [] ∧
          (apply_gms_override (igd_gen d.device_id) d.igd_gms d.gmch_read).1
              / 2 ^ 8 % 2 ^ 8 = d.igd_gms) ∧
       (0x40 < d.igd_gms →
          apply_gms_override (igd_gen d.device_id) d.igd_gms d.gmch_read =
            (d.gmch_read, [Ev.errReport IGDError.InvalidParameterValue]))) ∧
    ∃ pre, (vfio_probe_igd_bar4_quirk d 4).2 =
      pre ++ (apply_gms_override (igd_gen d.device_id) d.igd_gms d.gmch_read).2 ++
      bar4_final_writes (igd_gen d.device_id)
        (apply_gms_override (igd_gen d.device_id) d.igd_gms d.gmch_read).1 := by
  refine ⟨?_, ?_, ?_⟩
  · intro h8
    constructor
    · intro hle
      have hov : apply_gms_override (igd_gen d.device_id) d.igd_gms d.gmch_read =
          ((d.gmch_read &&&
              NOT32 (IGD_GMCH_GEN6_GMS_MASK <<< IGD_GMCH_GEN6_GMS_SHIFT)) |||
             (d.igd_gms <<< IGD_GMCH_GEN6_GMS_SHIFT), []) := by
        unfold apply_gms_override
        rw [if_pos hg, if_pos h8, if_pos hle]
      rw [hov]
      exact ⟨rfl, override_field6 d.gmch_read d.igd_gms hle⟩
    · intro hgt
      unfold apply_gms_override
      rw [if_pos hg, if_pos h8, if_neg (by omega)]
  · intro h8
    constructor
    · intro hle
      have hov : apply_gms_override (igd_gen d.device_id) d.igd_gms d.gmch_read =
          ((d.gmch_read &&&
              NOT32 (IGD_GMCH_GEN8_GMS_MASK <<< IGD_GMCH_GEN8_GMS_SHIFT)) |||
             (d.igd_gms <<< IGD_GMCH_GEN8_GMS_SHIFT), []) := by
        unfold apply_gms_override
        rw [if_pos hg, if_neg (by omega), if_pos hle]
      rw [hov]
      exact ⟨rfl, override_field8 d.gmch_read d.igd_gms hle⟩
    · intro hgt
      unfold apply_gms_override
      rw [if_pos hg, if_neg (by omega), if_neg (by omega)]
  · rw [bar4_success_trace d info r1 r2 hv hvga haddr hgen
          hrom hhot hvgaen hopi hopr hslot hl hh hlc hhc]
    refine ⟨[Ev.regionQuery VFIO_REGION_SUBTYPE_INTEL_IGD_OPREGION,
             Ev.rawRead info.size info.offset,
             Ev.fwAdd "etc/igd-opregion" d.opw.opregion_data,
             Ev.cfgWrite CfgArray.config IGD_ASLS 4 0,
             Ev.cfgWrite CfgArray.wmask IGD_ASLS 4 ALL_ONES32,
             Ev.cfgWrite CfgArray.emu IGD_ASLS 4 ALL_ONES32,
             Ev.regionQuery VFIO_REGION_SUBTYPE_INTEL_IGD_LPC_CFG,
             Ev.regionQuery VFIO_REGION_SUBTYPE_INTEL_IGD_HOST_CFG] ++
            (vfio_pci_igd_lpc_init d.lpcw).2 ++ (vfio_pci_igd_host_init d.lpcw).2, ?_⟩
    simp [List.append_assoc]

/-- The Skylake device with an out-of-range x-igd-gms override (0x50 > 0x40). -/
def skylakeDeviceGms : Bar4Device := { skylakeDevice with igd_gms := 0x50 }

theorem bar4_gms_override_validation_witness :
    (igd_gen skylakeDeviceGms.device_id < 8 →
       (skylakeDeviceGms.igd_gms ≤ 0x10 →
          (apply_gms_override (igd_gen skylakeDeviceGms.device_id)
              skylakeDeviceGms.igd_gms skylakeDeviceGms.gmch_read).2 = [] ∧
          (apply_gms_override (igd_gen skylakeDeviceGms.device_id)
              skylakeDeviceGms.igd_gms skylakeDeviceGms.gmch_read).1
              / 2 ^ 3 % 2 ^ 5 = skylakeDeviceGms.igd_gms) ∧
       (0x10 < skylakeDeviceGms.igd_gms →
          apply_gms_override (igd_gen skylakeDeviceGms.device_id)
              skylakeDeviceGms.igd_gms skylakeDeviceGms.gmch_read =
            (skylakeDeviceGms.gmch_read,
             [Ev.errReport IGDError.InvalidParameterValue]))) ∧
    (8 ≤ igd_gen skylakeDeviceGms.device_id →
       (skylakeDeviceGms.igd_gms ≤ 0x40 →
          (apply_gms_override (igd_gen skylakeDeviceGms.device_id)
              skylakeDeviceGms.igd_gms skylakeDeviceGms.gmch_read).2 = [] ∧
          (apply_gms_override (igd_gen skylakeDeviceGms.device_id)
              skylakeDeviceGms.igd_gms skylakeDeviceGms.gmch_read).1
              / 2 ^ 8 % 2 ^ 8 = skylakeDeviceGms.igd_gms) ∧
       (0x40 < skylakeDeviceGms.igd_gms →
          apply_gms_override (igd_gen skylakeDeviceGms.device_id)
              skylakeDeviceGms.igd_gms skylakeDeviceGms.gmch_read =
            (skylakeDeviceGms.gmch_read,
             [Ev.errReport IGDError.InvalidParameterValue]))) ∧
    ∃ pre, (vfio_probe_igd_bar4_quirk skylakeDeviceGms 4).2 =
      pre ++ (apply_gms_override (igd_gen skylakeDeviceGms.device_id)
                skylakeDeviceGms.igd_gms skylakeDeviceGms.gmch_read).2 ++
      bar4_final_writes (igd_gen skylakeDeviceGms.device_id)
        (apply_gms_override (igd_gen skylakeDeviceGms.device_id)
           skylakeDeviceGms.igd_gms skylakeDeviceGms.gmch_read).1 :=
  bar4_gms_override_validation skylakeDeviceGms ⟨0x2000, 0x3000⟩ ⟨0x40, 0⟩
    ⟨0x40, 0x100⟩ rfl rfl rfl (by decide) (by decide) rfl (by decide) rfl
    (by decide) rfl rfl rfl (by decide) (by decide) (by decide)

/-- C10: an x-igd-gms value of zero is indistinguishable from no override:
the override block is skipped, no diagnostic is emitted, and the BAR4 probe
uses the GMCH register value unmodified for the size computation and final
writes. -/
theorem bar4_gms_zero_skips_override (d : Bar4Device) (info r1 r2 : RegionInfo)
    (hv : d.vendor_id = PCI_VENDOR_ID_INTEL) (hvga : d.is_vga = true)
    (haddr : d.at_addr_00_02_0 = true)
    (hgen : igd_gen d.device_id ≠ -1)
    (hrom : ((match d.rom_info with
              | Except.error _ => true
              | Except.ok rom => rom.size == 0) && !d.romfile) = false)
    (hhot : d.hotplugged = false)
    (hvgaen : (d.gmch_read &&& 0x2 == 0 &&
               !d.vga_present && !d.populate_vga_ok) = false)
    (hopi : d.opw.opregion_info = Except.ok info)
    (hopr : d.opw.pread_ret = (info.size : Int))
    (hslot : (match d.lpcw.lpc_slot with
              | some dev => !dev.is_vfio_igd_lpc_bridge
              | none => false) = false)
    (hl : d.lpcw.lpc_region = Except.ok r1)
    (hh : d.lpcw.host_region = Except.ok r2)
    (hlc : (vfio_pci_igd_lpc_init d.lpcw).1 = 0)
    (hhc : (vfio_pci_igd_host_init d.lpcw).1 = 0)
    (hz : d.igd_gms = 0) :
    apply_gms_override (igd_gen d.device_id) d.igd_gms d.gmch_read =
      (d.gmch_read, []) ∧
    ∃ pre, (vfio_probe_igd_bar4_quirk d 4).2 =
      pre ++ bar4_final_writes (igd_gen d.device_id) d.gmch_read := by
  have hov : apply_gms_override (igd_gen d.device_id) d.igd_gms d.gmch_read =
      (d.gmch_read, []) := by
    unfold apply_gms_override
    simp [hz]
  refine ⟨hov, ?_⟩
  rw [bar4_success_trace d info r1 r2 hv hvga haddr hgen
        hrom hhot hvgaen hopi hopr hslot hl hh hlc hhc]
  refine ⟨[Ev.regionQuery VFIO_REGION_SUBTYPE_INTEL_IGD_OPREGION,
           Ev.rawRead info.size info.offset,
           Ev.fwAdd "etc/igd-opregion" d.opw.opregion_data,
           Ev.cfgWrite CfgArray.config IGD_ASLS 4 0,
           Ev.cfgWrite CfgArray.wmask IGD_ASLS 4 ALL_ONES32,
           Ev.cfgWrite CfgArray.emu IGD_ASLS 4 ALL_ONES32,
           Ev.regionQuery VFIO_REGION_SUBTYPE_INTEL_IGD_LPC_CFG,
           Ev.regionQuery VFIO_REGION_SUBTYPE_INTEL_IGD_HOST_CFG] ++
          (vfio_pci_igd_lpc_init d.lpcw).2 ++ (vfio_pci_igd_host_init d.lpcw).2, ?_⟩
  rw [hov]
  simp [List.append_assoc]

theorem bar4_gms_zero_skips_override_witness :
    apply_gms_override (igd_gen skylakeDevice.device_id) skylakeDevice.igd_gms
        skylakeDevice.gmch_read = (skylakeDevice.gmch_read, []) ∧
    ∃ pre, (vfio_probe_igd_bar4_quirk skylakeDevice 4).2 =
      pre ++ bar4_final_writes (igd_gen skylakeDevice.device_id)
               skylakeDevice.gmch_read :=
  bar4_gms_zero_skips_override skylakeDevice ⟨0x2000, 0x3000⟩ ⟨0x40, 0⟩
    ⟨0x40, 0x100⟩ rfl rfl rfl (by decide) (by decide) rfl (by decide) rfl
    (by decide) rfl rfl rfl (by decide) (by decide) rfl
